import Mathlib

/-
Shallow embedding of the fe-hunt stock-monitor (src/index.js): the response
classifier (checkSku / checkSkuAndProcess), the log-entry constructor
(createLogEntry), the status ledger (lastLogs), the notification gates and
the round-robin poll loop (startMonitoring).

JavaScript values that flow through the classifier are modelled by the
inductive JsVal.  Numbers are Int (NaN never arises on the paths the spec
talks about); property access on null/undefined throws a TypeError, modelled
by Except with a fixed message text (the real message text comes from the JS
runtime, not from index.js, so only its presence matters here).
-/

namespace FeHunt

/-- A JavaScript value, as far as index.js inspects one. -/
inductive JsVal where
  | vNull : JsVal
  | vUndefined : JsVal
  | vBool : Bool → JsVal
  | vNum : Int → JsVal
  | vStr : String → JsVal
  | vArr : List JsVal → JsVal
  | vObj : List (String × JsVal) → JsVal

/-- JavaScript truthiness (`if (v)`), for the values JsVal covers. -/
def JsVal.truthy : JsVal → Bool
  | .vNull => false
  | .vUndefined => false
  | .vBool b => b
  | .vNum n => n != 0
  | .vStr s => s != ""
  | .vArr _ => true
  | .vObj _ => true

/-- Property read `v.k`: throws a TypeError on null/undefined, yields the
field (or undefined) on an object, and undefined on other values (none of
the properties index.js reads exists on primitives or arrays). -/
def JsVal.propE : JsVal → String → Except String JsVal
  | .vNull, _ => .error "Cannot read properties of null"
  | .vUndefined, _ => .error "Cannot read properties of undefined"
  | .vObj fs, k => .ok ((fs.lookup k).getD .vUndefined)
  | _, _ => .ok .vUndefined

/-- Optional-chaining read `v?.k` (used for `res.data?.success`). -/
def JsVal.optChain (v : JsVal) (k : String) : JsVal :=
  match v with
  | .vNull => .vUndefined
  | .vUndefined => .vUndefined
  | .vObj fs => (fs.lookup k).getD .vUndefined
  | _ => .vUndefined

/-- Property read on a value known not to be null/undefined (total view). -/
def JsVal.propD (v : JsVal) (k : String) : JsVal :=
  match v.propE k with
  | .ok r => r
  | .error _ => .vUndefined

/-- Strict equality against the string literal `"true"`
(`item.is_active === "true"`). -/
def JsVal.isStrTrue : JsVal → Bool
  | .vStr s => s == "true"
  | _ => false

/-- Strict equality against `null` (`res.data.listMap === null`). -/
def JsVal.isNull : JsVal → Bool
  | .vNull => true
  | _ => false

/-- `Array.isArray`. -/
def JsVal.isArray : JsVal → Bool
  | .vArr _ => true
  | _ => false

/-- `.length` of an array value (0 on non-arrays; only used after isArray). -/
def JsVal.arrLen : JsVal → Nat
  | .vArr xs => xs.length
  | _ => 0

/-- `[0]` on an array value (undefined when empty or not an array). -/
def JsVal.arrHead : JsVal → JsVal
  | .vArr (x :: _) => x
  | _ => .vUndefined

/-- One entry of lastLogs: `{ timestamp, status, error?, price? }`.
An Option field is none exactly when the JS object lacks the key. -/
structure LogEntry where
  timestamp : Nat
  status : String
  error : Option String
  price : Option JsVal

/-- createLogEntry(status, error, price) (index.js lines 180-187):
spreads `error` / `price` into the object only when truthy.  The error
argument in index.js is always null or a string, so it is an Option String
here; a present-but-empty string is falsy and therefore dropped, like the
null default. -/
def createLogEntry (now : Nat) (status : String) (error : Option String)
    (price : JsVal) : LogEntry :=
  { timestamp := now
    status := status
    error := match error with
      | some e => if e != "" then some e else none
      | none => none
    price := if price.truthy then some price else none }

/-- The result of the axios GET seen by checkSku: either the promise
rejected (network error, timeout, non-2xx status — the catch block) with an
error message, or it resolved and `res.data` is the given value. -/
inductive FetchResult where
  | failure : String → FetchResult
  | response : JsVal → FetchResult

/-- One outbound Telegram message attempted via sendMessage, by template. -/
inductive Message where
  | skuNotFound : String → String → Message
  | skuCheckError : String → String → Message
  | stockAvailable : String → JsVal → String → Message

/-- Is this the stock-available template (createStockMessage)? -/
def Message.isStock : Message → Bool
  | .stockAvailable _ _ _ => true
  | _ => false

/-- Is this one of the two error/SKU-problem templates? -/
def Message.isErrorMsg : Message → Bool
  | .skuNotFound _ _ => true
  | .skuCheckError _ _ => true
  | .stockAvailable _ _ _ => false

/-- The observable effect of one checkSku / checkSkuAndProcess call:
the write to lastLogs[sku] (if any), the messages handed to sendMessage in
order, and the value the function returns (JS null when it returns null). -/
structure TickEffect where
  logWrite : Option LogEntry
  messages : List Message
  returned : JsVal

/-- The body of the try block of checkSku (index.js lines 198-258), given
`res.data`.  An `Except.error` is a thrown TypeError reaching the catch
(reading `.listMap` or `.is_active` off null/undefined). -/
def checkSkuTry (errGate : Bool) (sku locale : String) (now : Nat)
    (data : JsVal) : Except String TickEffect :=
  if !(data.optChain "success").truthy then
    .ok ⟨some (createLogEntry now "error" (some "API returned success: false") .vNull),
         [], .vNull⟩
  else
    match data.propE "listMap" with
    | .error e => .error e
    | .ok listMap =>
      if listMap.isNull then
        .ok ⟨some (createLogEntry now "not_found" none .vNull),
             if errGate then [.skuNotFound sku locale] else [], .vNull⟩
      else if !listMap.isArray || listMap.arrLen == 0 then
        .ok ⟨some (createLogEntry now "error" (some "listMap is empty or not an array") .vNull),
             if errGate then [.skuCheckError sku locale] else [], .vNull⟩
      else
        match (listMap.arrHead).propE "is_active" with
        | .error e => .error e
        | .ok _ => .ok ⟨none, [], listMap.arrHead⟩

/-- The catch block of checkSku (index.js lines 259-267): record an error
entry with `err.message || "Unknown error"`, send nothing, return null. -/
def catchEffect (now : Nat) (msg : String) : TickEffect :=
  ⟨some (createLogEntry now "error"
      (some (if msg == "" then "Unknown error" else msg)) .vNull),
   [], .vNull⟩

/-- checkSku (index.js lines 190-268).  A transport failure, or a throw
inside the try, lands in the catch block. -/
def checkSku (errGate : Bool) (sku locale : String) (now : Nat)
    (f : FetchResult) : TickEffect :=
  match f with
  | .failure msg => catchEffect now msg
  | .response data =>
    match checkSkuTry errGate sku locale now data with
    | .ok eff => eff
    | .error msg => catchEffect now msg

/-- checkSkuAndProcess (index.js lines 271-286): when checkSku returned a
truthy item, classify it by `is_active === "true"`, overwrite
lastLogs[sku], and send a stock message iff available and the stock gate
is open. -/
def checkSkuAndProcess (stockGate errGate : Bool) (sku locale : String)
    (now : Nat) (f : FetchResult) : TickEffect :=
  let eff := checkSku errGate sku locale now f
  if eff.returned.truthy then
    let isAvailable := (eff.returned.propD "is_active").isStrTrue
    let price := eff.returned.propD "price"
    ⟨some (createLogEntry now (if isAvailable then "available" else "unavailable")
        none price),
     eff.messages ++ (if isAvailable && stockGate then [.stockAvailable sku price locale] else []),
     eff.returned⟩
  else
    eff

/-- lastLogs, the status ledger: a string-keyed object, one entry per key.
Modelled as an association list with unique keys; assignment replaces. -/
def Ledger : Type := List (String × LogEntry)

/-- Read lastLogs[sku]. -/
def Ledger.get (l : Ledger) (sku : String) : Option LogEntry :=
  List.lookup sku l

/-- `lastLogs[sku] = e`: unconditional whole-record overwrite. -/
def Ledger.record (l : Ledger) (sku : String) (e : LogEntry) : Ledger :=
  (sku, e) :: List.filter (fun p => p.1 != sku) l

/-- At most one record per SKU: the keys are pairwise distinct. -/
def Ledger.wf (l : Ledger) : Prop :=
  (List.map Prod.fst l).Nodup

/-- The ledgers reachable from the initial empty lastLogs by record calls. -/
inductive LedgerReachable : Ledger → Prop where
  | init : LedgerReachable ([] : Ledger)
  | step {l : Ledger} (sku : String) (e : LogEntry) :
      LedgerReachable l → LedgerReachable (l.record sku e)

/-- The environment of one poll-loop iteration: the gate values read during
the tick and the outcome of the fetch for the SKU under the cursor. -/
structure TickInput where
  stockGate : Bool
  errGate : Bool
  now : Nat
  fetch : FetchResult

/-- The mutable state the monitoring loop touches, plus two histories
(messages sent, SKUs checked) so that temporal claims can be stated. -/
structure MonState where
  currentIndex : Nat
  ledger : Ledger
  sent : List Message
  checked : List String

/-- State at startup: cursor 0, lastLogs = \x7b\x7d, nothing sent. -/
def initState : MonState := ⟨0, ([] : Ledger), [], []⟩

/-- One iteration of the while loop of startMonitoring (index.js lines
292-307): check the SKU under the cursor, apply its ledger write and
messages, advance the cursor mod the list length. -/
def tick (skuList : List String) (locale : String) (inp : TickInput)
    (st : MonState) : MonState :=
  let sku := skuList.getD st.currentIndex ""
  let eff := checkSkuAndProcess inp.stockGate inp.errGate sku locale inp.now inp.fetch
  { currentIndex := (st.currentIndex + 1) % skuList.length
    ledger := match eff.logWrite with
      | some e => st.ledger.record sku e
      | none => st.ledger
    sent := st.sent ++ eff.messages
    checked := st.checked ++ [sku] }

/-- The loop after k iterations, under an environment giving each tick its
gate values and fetch outcome. -/
def runTicks (skuList : List String) (locale : String)
    (env : Nat → TickInput) : Nat → MonState
  | 0 => initState
  | k + 1 => tick skuList locale (env k) (runTicks skuList locale env k)

/-- Default of stockNotificationsEnabled (index.js line 53). -/
def stockNotificationsEnabledDefault : Bool := true

/-- The /toggle_stock handler (index.js lines 92-96): flip the boolean. -/
def toggleStock (b : Bool) : Bool := !b

/-- Gate value after m /toggle_stock commands from startup. -/
def afterToggles (m : Nat) : Bool :=
  toggleStock^[m] stockNotificationsEnabledDefault

/-- The status an outcome (a fetch result) classifies to, independent of
gates, sku, locale and clock: the status field of the entry the tick writes
(none when the tick writes nothing, i.e. a truthy non-object item). -/
def outcomeStatus (f : FetchResult) : Option String :=
  (checkSkuAndProcess true true "" "" 0 f).logWrite.map LogEntry.status

/- ===================== Theorems ===================== -/

theorem ledger_get_record (l : Ledger) (sku : String) (e : LogEntry) :
    (l.record sku e).get sku = some e := by
  simp [Ledger.record, Ledger.get, List.lookup]

theorem ledger_wf_record {l : Ledger} (h : l.wf) (sku : String) (e : LogEntry) :
    (l.record sku e).wf := by
  unfold Ledger.wf Ledger.record at *
  simp only [List.map_cons, List.nodup_cons]
  constructor
  · intro hmem
    obtain ⟨p, hp, hps⟩ := List.mem_map.mp hmem
    have hf := (List.mem_filter.mp hp).2
    rw [hps] at hf
    simp at hf
  · exact h.sublist ((List.filter_sublist l).map Prod.fst)

/-- C7: record followed by get for the same SKU returns exactly the record
just written; every ledger reachable from the empty lastLogs by record
calls holds at most one record per SKU. -/
theorem claim_C7 :
    (∀ (l : Ledger) (sku : String) (e : LogEntry), (l.record sku e).get sku = some e) ∧
    (∀ l : Ledger, LedgerReachable l → l.wf) := by
  refine ⟨ledger_get_record, ?_⟩
  intro l h
  induction h with
  | init => simp [Ledger.wf]
  | step sku e _ ih => exact ledger_wf_record ih sku e

/-- Witness for C7 at a concrete ledger and record. -/
theorem claim_C7_witness :
    (Ledger.get (Ledger.record ([] : Ledger) "A100" ⟨3, "not_found", none, none⟩) "A100"
        = some (⟨3, "not_found", none, none⟩ : LogEntry)) ∧
    Ledger.wf (Ledger.record ([] : Ledger) "A100" ⟨3, "not_found", none, none⟩) :=
  ⟨claim_C7.1 ([] : Ledger) "A100" ⟨3, "not_found", none, none⟩,
   claim_C7.2 _ (LedgerReachable.step "A100" ⟨3, "not_found", none, none⟩ LedgerReachable.init)⟩

/-- C9: the stock gate after m /toggle_stock commands from the default —
equal to the default exactly when m is even (so different from it when m is
odd), each command flipping the boolean exactly once. -/
theorem claim_C9 (m : Nat) :
    afterToggles m = decide (m % 2 = 0) ∧
    afterToggles (m + 1) = !(afterToggles m) := by
  constructor
  · induction m with
    | zero => rfl
    | succ m ih =>
      rw [afterToggles, Function.iterate_succ_apply'] at *
      rw [ih]
      rcases Nat.mod_two_eq_zero_or_one m with h | h
      · have h1 : (m + 1) % 2 = 1 := by omega
        rw [toggleStock, h, h1]
        decide
      · have h1 : (m + 1) % 2 = 0 := by omega
        rw [toggleStock, h, h1]
        decide
  · rw [afterToggles, afterToggles, Function.iterate_succ_apply']
    rfl

theorem countP_mod_range (n i : Nat) (hi : i < n) (k : Nat) :
    k / n ≤ List.countP (fun t => t % n == i) (List.range k) := by
  induction k using Nat.strong_induction_on with
  | _ k ih =>
    rcases Nat.lt_or_ge k n with h | h
    · simp [Nat.div_eq_of_lt h]
    · have hk : k = n + (k - n) := by omega
      have hrange : List.range k = List.range n ++ (List.range (k - n)).map (n + ·) := by
        conv_lhs => rw [hk]
        exact List.range_add n (k - n)
      rw [hrange, List.countP_append, List.countP_map]
      have h1 : List.countP (fun t => t % n == i) (List.range n) = 1 := by
        have he : List.countP (fun t => t % n == i) (List.range n)
            = List.countP (fun t => t == i) (List.range n) := by
          apply List.countP_congr
          intro a ha
          have : a < n := List.mem_range.mp ha
          simp [Nat.mod_eq_of_lt this]
        rw [he]
        exact List.count_eq_one_of_mem (List.nodup_range n) (List.mem_range.mpr hi)
      have h2 : List.countP ((fun t => t % n == i) ∘ (n + ·)) (List.range (k - n))
          = List.countP (fun t => t % n == i) (List.range (k - n)) := by
        apply List.countP_congr
        intro a _
        simp [Nat.add_mod_left]
      have h3 := ih (k - n) (by omega)
      have h4 : k / n = (k - n) / n + 1 := by
        rw [Nat.div_eq_sub_div (by omega) h]
      omega

theorem runTicks_currentIndex (skuList : List String) (locale : String)
    (env : Nat → TickInput) (k : Nat) :
    (runTicks skuList locale env k).currentIndex = k % skuList.length := by
  induction k with
  | zero => simp [runTicks, initState]
  | succ k ih =>
    simp only [runTicks, tick]
    rw [ih, Nat.add_mod (k % skuList.length) 1,
      Nat.mod_mod_of_dvd k (dvd_refl skuList.length), ← Nat.add_mod]

theorem runTicks_checked (skuList : List String) (locale : String)
    (env : Nat → TickInput) (k : Nat) :
    (runTicks skuList locale env k).checked
      = (List.range k).map (fun t => skuList.getD (t % skuList.length) "") := by
  induction k with
  | zero => simp [runTicks, initState]
  | succ k ih =>
    simp only [runTicks, tick]
    rw [List.range_succ, List.map_append, ← ih, runTicks_currentIndex]
    simp

/-- C5: after k iterations of the monitoring loop over a non-empty SKU list
of length n, the cursor sits exactly k mod n positions past its start, and
every configured SKU has been checked at least k / n times. -/
theorem claim_C5 (skuList : List String) (locale : String) (env : Nat → TickInput)
    (k : Nat) (hn : skuList ≠ []) :
    (runTicks skuList locale env k).currentIndex = k % skuList.length ∧
    ∀ s ∈ skuList, k / skuList.length ≤ (runTicks skuList locale env k).checked.count s := by
  refine ⟨runTicks_currentIndex skuList locale env k, ?_⟩
  intro s hs
  obtain ⟨i, hi, hgi⟩ := List.mem_iff_getElem.mp hs
  rw [runTicks_checked]
  have hcnt : ((List.range k).map (fun t => skuList.getD (t % skuList.length) "")).count s
      = (List.range k).countP (fun t => skuList.getD (t % skuList.length) "" == s) := by
    rw [List.count_eq_countP, List.countP_map]
    rfl
  rw [hcnt]
  refine le_trans (countP_mod_range skuList.length i hi k) ?_
  apply List.countP_mono_left
  intro t _ ht
  have hti : t % skuList.length = i := by simpa using ht
  rw [hti, List.getD_eq_getElem skuList "" hi, hgi]
  simp

/-- Witness for C5: two SKUs, five ticks. -/
theorem claim_C5_witness :
    (runTicks ["A100", "B200"] "en-us" (fun _ => ⟨true, true, 0, .failure "x"⟩) 5).currentIndex
        = 5 % (["A100", "B200"] : List String).length ∧
    ∀ s ∈ (["A100", "B200"] : List String),
      5 / (["A100", "B200"] : List String).length
        ≤ (runTicks ["A100", "B200"] "en-us" (fun _ => ⟨true, true, 0, .failure "x"⟩) 5).checked.count s :=
  claim_C5 ["A100", "B200"] "en-us" (fun _ => ⟨true, true, 0, .failure "x"⟩) 5 (by simp)

/-- C3: a payload whose top-level success flag is false classifies as error
with the fixed detail, whatever the item-list field holds. -/
theorem claim_C3 (g : Bool) (sku locale : String) (now : Nat)
    (fields : List (String × JsVal)) (h : fields.lookup "success" = some (.vBool false)) :
    (checkSku g sku locale now (.response (.vObj fields))).logWrite
      = some ⟨now, "error", some "API returned success: false", none⟩ := by
  simp [checkSku, checkSkuTry, JsVal.optChain, h, JsVal.truthy, createLogEntry]

/-- Witness for C3: success false with a well-formed item list. -/
theorem claim_C3_witness :
    (checkSku true "A100" "en-us" 5 (.response (.vObj [("success", .vBool false),
        ("listMap", .vArr [.vObj [("is_active", .vStr "true")]])]))).logWrite
      = some ⟨5, "error", some "API returned success: false", none⟩ :=
  claim_C3 true "A100" "en-us" 5
    [("success", .vBool false), ("listMap", .vArr [.vObj [("is_active", .vStr "true")]])] rfl

/-- C4: a truthy success flag with a listMap field that is exactly null
classifies as not_found with no detail, never as error. -/
theorem claim_C4 (g : Bool) (sku locale : String) (now : Nat)
    (fields : List (String × JsVal)) (sv : JsVal)
    (hs : fields.lookup "success" = some sv) (hst : sv.truthy = true)
    (hl : fields.lookup "listMap" = some JsVal.vNull) :
    (checkSku g sku locale now (.response (.vObj fields))).logWrite
      = some ⟨now, "not_found", none, none⟩ ∧
    ∀ e, (checkSku g sku locale now (.response (.vObj fields))).logWrite = some e →
      e.status ≠ "error" := by
  have h1 : (checkSku g sku locale now (.response (.vObj fields))).logWrite
      = some ⟨now, "not_found", none, none⟩ := by
    have hvn : JsVal.vNull.truthy = false := rfl
    simp [checkSku, checkSkuTry, JsVal.optChain, JsVal.propE, hs, hst, hl,
      JsVal.isNull, hvn, createLogEntry]
  refine ⟨h1, ?_⟩
  intro e he
  rw [h1] at he
  injection he with h2
  rw [← h2]
  simp

/-- Witness for C4: success true, listMap null. -/
theorem claim_C4_witness :
    ((checkSku true "A100" "en-us" 2 (.response (.vObj [("success", .vBool true),
        ("listMap", JsVal.vNull)]))).logWrite
      = some ⟨2, "not_found", none, none⟩) ∧
    ∀ e, (checkSku true "A100" "en-us" 2 (.response (.vObj [("success", .vBool true),
        ("listMap", JsVal.vNull)]))).logWrite = some e →
      e.status ≠ "error" :=
  claim_C4 true "A100" "en-us" 2 [("success", .vBool true), ("listMap", JsVal.vNull)]
    (.vBool true) rfl rfl rfl

/-- C10: a truthy success flag with the listMap key absent (so the read
yields undefined, not null) classifies as error with the malformed-list
detail, not as not_found: only the strict value null gives not_found. -/
theorem claim_C10 (g : Bool) (sku locale : String) (now : Nat)
    (fields : List (String × JsVal)) (sv : JsVal)
    (hs : fields.lookup "success" = some sv) (hst : sv.truthy = true)
    (hl : fields.lookup "listMap" = none) :
    (checkSku g sku locale now (.response (.vObj fields))).logWrite
      = some ⟨now, "error", some "listMap is empty or not an array", none⟩ ∧
    ∀ e, (checkSku g sku locale now (.response (.vObj fields))).logWrite = some e →
      e.status ≠ "not_found" := by
  have h1 : (checkSku g sku locale now (.response (.vObj fields))).logWrite
      = some ⟨now, "error", some "listMap is empty or not an array", none⟩ := by
    have hvn : JsVal.vNull.truthy = false := rfl
    simp [checkSku, checkSkuTry, JsVal.optChain, JsVal.propE, hs, hst, hl,
      JsVal.isNull, JsVal.isArray, JsVal.arrLen, hvn, createLogEntry]
  refine ⟨h1, ?_⟩
  intro e he
  rw [h1] at he
  injection he with h2
  rw [← h2]
  simp

/-- Witness for C10: success true, no listMap key at all. -/
theorem claim_C10_witness :
    ((checkSku true "A100" "en-us" 4 (.response (.vObj [("success", .vBool true)]))).logWrite
      = some ⟨4, "error", some "listMap is empty or not an array", none⟩) ∧
    ∀ e, (checkSku true "A100" "en-us" 4 (.response (.vObj [("success", .vBool true)]))).logWrite
        = some e → e.status ≠ "not_found" :=
  claim_C10 true "A100" "en-us" 4 [("success", .vBool true)] (.vBool true) rfl rfl rfl

/-- C2 counterexample: an available first item with no price key is
recorded with status available but with no price field at all, against the
claim that both classifications always carry the price. -/
theorem claim_C2_counterexample :
    ((checkSkuAndProcess true true "A100" "en-us" 0 (.response (.vObj [("success", .vBool true),
        ("listMap", .vArr [.vObj [("is_active", .vStr "true")]])]))).logWrite.map LogEntry.status
      = some "available") ∧
    ((checkSkuAndProcess true true "A100" "en-us" 0 (.response (.vObj [("success", .vBool true),
        ("listMap", .vArr [.vObj [("is_active", .vStr "true")]])]))).logWrite.map LogEntry.price
      = some none) :=
  ⟨rfl, rfl⟩

/-- C2 as amended: for a successful payload whose item list is a non-empty
array with an object as first element, an activity flag strictly equal to
the string true classifies as available, anything else as unavailable; the
record carries the item price exactly when that price is truthy, and drops
it when the price is falsy or absent. -/
theorem claim_C2 (g e : Bool) (sku locale : String) (now : Nat)
    (fields ifs : List (String × JsVal)) (sv : JsVal) (rest : List JsVal)
    (hs : fields.lookup "success" = some sv) (hst : sv.truthy = true)
    (hl : fields.lookup "listMap" = some (.vArr (.vObj ifs :: rest))) :
    (checkSkuAndProcess g e sku locale now (.response (.vObj fields))).logWrite
      = some ⟨now,
          if ((ifs.lookup "is_active").getD JsVal.vUndefined).isStrTrue
            then "available" else "unavailable",
          none,
          if ((ifs.lookup "price").getD JsVal.vUndefined).truthy
            then some ((ifs.lookup "price").getD JsVal.vUndefined) else none⟩ := by
  have hsku : checkSku e sku locale now (.response (.vObj fields))
      = ⟨none, [], .vObj ifs⟩ := by
    simp [checkSku, checkSkuTry, JsVal.optChain, JsVal.propE, hs, hst, hl,
      JsVal.isNull, JsVal.isArray, JsVal.arrLen, JsVal.arrHead]
  simp [checkSkuAndProcess, hsku, JsVal.truthy, JsVal.propD, JsVal.propE, createLogEntry]

/-- Witness for C2 as amended: is_active true with a truthy price. -/
theorem claim_C2_witness :
    (checkSkuAndProcess true true "A100" "en-us" 7 (.response (.vObj [("success", .vBool true),
        ("listMap", .vArr [.vObj [("is_active", .vStr "true"), ("price", .vStr "1999")]])]))).logWrite
      = some ⟨7, "available", none, some (.vStr "1999")⟩ := by
  rw [claim_C2 true true "A100" "en-us" 7
    [("success", .vBool true),
      ("listMap", .vArr [.vObj [("is_active", .vStr "true"), ("price", .vStr "1999")]])]
    [("is_active", .vStr "true"), ("price", .vStr "1999")] (.vBool true) [] rfl rfl rfl]
  rfl

theorem checkSkuTry_shape (e : Bool) (sku locale : String) (now : Nat) (data : JsVal) :
    (∃ m, checkSkuTry e sku locale now data = .error m) ∨
    (∃ eff, checkSkuTry e sku locale now data = .ok eff ∧
      ((eff.logWrite = none ∧ eff.messages = []) ∨
       (eff.returned = .vNull ∧ ∃ entry, eff.logWrite = some entry ∧
          (entry.status = "error" ∨ entry.status = "not_found")))) := by
  unfold checkSkuTry
  split
  · exact .inr ⟨_, rfl, .inr ⟨rfl, _, rfl, .inl rfl⟩⟩
  · split
    · exact .inl ⟨_, rfl⟩
    · split
      · exact .inr ⟨_, rfl, .inr ⟨rfl, _, rfl, .inr rfl⟩⟩
      · split
        · exact .inr ⟨_, rfl, .inr ⟨rfl, _, rfl, .inl rfl⟩⟩
        · split
          · exact .inl ⟨_, rfl⟩
          · exact .inr ⟨_, rfl, .inl ⟨rfl, rfl⟩⟩

theorem checkSku_shape (e : Bool) (sku locale : String) (now : Nat) (f : FetchResult) :
    ((checkSku e sku locale now f).logWrite = none ∧
     (checkSku e sku locale now f).messages = []) ∨
    ((checkSku e sku locale now f).returned = .vNull ∧
     ∃ entry, (checkSku e sku locale now f).logWrite = some entry ∧
       (entry.status = "error" ∨ entry.status = "not_found")) := by
  cases f with
  | failure msg => exact .inr ⟨rfl, _, rfl, .inl rfl⟩
  | response data =>
    have hdef : checkSku e sku locale now (.response data)
        = (match checkSkuTry e sku locale now data with
           | .ok eff => eff
           | .error msg => catchEffect now msg) := rfl
    rcases checkSkuTry_shape e sku locale now data with ⟨m, hm⟩ | ⟨eff, heff, hc⟩
    · rw [hdef, hm]
      exact .inr ⟨rfl, _, rfl, .inl rfl⟩
    · rw [hdef, heff]
      exact hc

theorem checkSku_param (e e' : Bool) (sku sku' locale locale' : String)
    (now now' : Nat) (f : FetchResult) :
    (checkSku e sku locale now f).returned = (checkSku e' sku' locale' now' f).returned ∧
    (checkSku e sku locale now f).logWrite.map LogEntry.status
      = (checkSku e' sku' locale' now' f).logWrite.map LogEntry.status := by
  cases f with
  | failure msg => exact ⟨rfl, rfl⟩
  | response data =>
    by_cases h1 : (data.optChain "success").truthy = true
    · rcases h2 : data.propE "listMap" with m2 | lm
      · constructor <;>
          simp [checkSku, checkSkuTry, h1, h2, catchEffect, createLogEntry]
      · by_cases h3 : lm.isNull = true
        · constructor <;>
            simp [checkSku, checkSkuTry, h1, h2, h3, createLogEntry]
        · by_cases h4 : (!lm.isArray || lm.arrLen == 0) = true
          · constructor <;>
              simp [checkSku, checkSkuTry, h1, h2, h3, h4, createLogEntry]
          · rcases h5 : lm.arrHead.propE "is_active" with m5 | fl
            · constructor <;>
                simp [checkSku, checkSkuTry, h1, h2, h3, h4, h5, catchEffect, createLogEntry]
            · constructor <;>
                simp [checkSku, checkSkuTry, h1, h2, h3, h4, h5]
    · constructor <;> simp [checkSku, checkSkuTry, h1, createLogEntry]

theorem checkSkuAndProcess_logWrite_gates (g g' e : Bool) (sku locale : String)
    (now : Nat) (f : FetchResult) :
    (checkSkuAndProcess g e sku locale now f).logWrite
      = (checkSkuAndProcess g' e sku locale now f).logWrite := by
  simp only [checkSkuAndProcess]
  split <;> rfl

theorem checkSkuAndProcess_status_const (g e : Bool) (sku locale : String)
    (now : Nat) (f : FetchResult) :
    (checkSkuAndProcess g e sku locale now f).logWrite.map LogEntry.status
      = outcomeStatus f := by
  obtain ⟨hret, hstat⟩ := checkSku_param e true sku "" locale "" now 0 f
  unfold outcomeStatus
  simp only [checkSkuAndProcess]
  rw [hret]
  split
  · rfl
  · exact hstat

theorem checkSkuAndProcess_available_messages (g e : Bool) (sku locale : String)
    (now : Nat) (f : FetchResult)
    (ha : outcomeStatus f = some "available") :
    (checkSkuAndProcess g e sku locale now f).messages
      = if g then [.stockAvailable sku ((checkSku e sku locale now f).returned.propD "price") locale]
        else [] := by
  have hst := checkSkuAndProcess_status_const g e sku locale now f
  rw [ha] at hst
  rcases checkSku_shape e sku locale now f with ⟨hl, hm⟩ | ⟨hret, entry, hw, hso⟩
  · by_cases hb : (checkSku e sku locale now f).returned.truthy = true
    · by_cases hav : ((checkSku e sku locale now f).returned.propD "is_active").isStrTrue = true
      · simp [checkSkuAndProcess, hb, hav, hm]
      · exfalso
        simp [checkSkuAndProcess, hb, hav, createLogEntry] at hst
    · exfalso
      simp [checkSkuAndProcess, hb, hl] at hst
  · exfalso
    have hb : (checkSku e sku locale now f).returned.truthy = false := by
      rw [hret]
      rfl
    simp [checkSkuAndProcess, hb, hw] at hst
    rcases hso with h | h <;> simp [h] at hst

/-- C6: for a tick classifying available, the stored record does not depend
on the stock gate, and a stock notification goes out exactly when the gate
is open. -/
theorem claim_C6 (g g' e : Bool) (sku locale : String) (now : Nat) (f : FetchResult)
    (ha : outcomeStatus f = some "available") :
    (checkSkuAndProcess g e sku locale now f).logWrite
      = (checkSkuAndProcess g' e sku locale now f).logWrite ∧
    ((checkSkuAndProcess g e sku locale now f).messages.countP Message.isStock
      = if g then 1 else 0) := by
  refine ⟨checkSkuAndProcess_logWrite_gates g g' e sku locale now f, ?_⟩
  rw [checkSkuAndProcess_available_messages g e sku locale now f ha]
  cases g <;> simp [Message.isStock]

/-- Witness for C6: an in-stock response, stock gate open and closed. -/
theorem claim_C6_witness :
    ((checkSkuAndProcess true true "A100" "en-us" 3 (.response (.vObj [("success", .vBool true),
        ("listMap", .vArr [.vObj [("is_active", .vStr "true"), ("price", .vStr "1999")]])]))).logWrite
      = (checkSkuAndProcess false true "A100" "en-us" 3 (.response (.vObj [("success", .vBool true),
        ("listMap", .vArr [.vObj [("is_active", .vStr "true"), ("price", .vStr "1999")]])]))).logWrite) ∧
    ((checkSkuAndProcess true true "A100" "en-us" 3 (.response (.vObj [("success", .vBool true),
        ("listMap", .vArr [.vObj [("is_active", .vStr "true"), ("price", .vStr "1999")]])]))).messages.countP Message.isStock
      = if true then 1 else 0) :=
  claim_C6 true false true "A100" "en-us" 3 (.response (.vObj [("success", .vBool true),
    ("listMap", .vArr [.vObj [("is_active", .vStr "true"), ("price", .vStr "1999")]])])) rfl

theorem tick_sent_stock (skuList : List String) (locale : String) (inp : TickInput)
    (st : MonState) (hg : inp.stockGate = true)
    (ha : outcomeStatus inp.fetch = some "available") :
    (tick skuList locale inp st).sent.countP Message.isStock
      = st.sent.countP Message.isStock + 1 := by
  simp only [tick, List.countP_append]
  rw [checkSkuAndProcess_available_messages inp.stockGate inp.errGate
    (skuList.getD st.currentIndex "") locale inp.now inp.fetch ha, hg]
  simp [Message.isStock]

/-- C8: two consecutive ticks that both classify available while the stock
gate is open add exactly two stock messages to the send history, one per
tick, with no deduplication. -/
theorem claim_C8 (skuList : List String) (locale : String) (env : Nat → TickInput)
    (k : Nat)
    (hg1 : (env k).stockGate = true) (hg2 : (env (k + 1)).stockGate = true)
    (ha1 : outcomeStatus (env k).fetch = some "available")
    (ha2 : outcomeStatus (env (k + 1)).fetch = some "available") :
    (runTicks skuList locale env (k + 2)).sent.countP Message.isStock
      = (runTicks skuList locale env k).sent.countP Message.isStock + 2 := by
  have t1 := tick_sent_stock skuList locale (env k) (runTicks skuList locale env k) hg1 ha1
  have t2 := tick_sent_stock skuList locale (env (k + 1)) (runTicks skuList locale env (k + 1)) hg2 ha2
  show (tick skuList locale (env (k + 1)) (runTicks skuList locale env (k + 1))).sent.countP Message.isStock = _
  rw [t2]
  show (tick skuList locale (env k) (runTicks skuList locale env k)).sent.countP Message.isStock + 1 = _
  rw [t1]

/-- Witness for C8: one SKU, two available ticks from the start. -/
theorem claim_C8_witness :
    (runTicks ["A100"] "en-us" (fun _ => ⟨true, true, 0, .response (.vObj [("success", .vBool true),
        ("listMap", .vArr [.vObj [("is_active", .vStr "true"), ("price", .vStr "1999")]])])⟩) 2).sent.countP Message.isStock
      = (runTicks ["A100"] "en-us" (fun _ => ⟨true, true, 0, .response (.vObj [("success", .vBool true),
        ("listMap", .vArr [.vObj [("is_active", .vStr "true"), ("price", .vStr "1999")]])])⟩) 0).sent.countP Message.isStock + 2 :=
  claim_C8 ["A100"] "en-us" (fun _ => ⟨true, true, 0, .response (.vObj [("success", .vBool true),
    ("listMap", .vArr [.vObj [("is_active", .vStr "true"), ("price", .vStr "1999")]])])⟩) 0
    rfl rfl rfl rfl

/-- C1 counterexample: a transport failure with the error gate open records
an error outcome yet sends no notification at all, so sending is not
equivalent to the gate for error outcomes. -/
theorem claim_C1_counterexample :
    ((checkSkuAndProcess true true "A100" "en-us" 0
        (.failure "timeout of 30000ms exceeded")).logWrite.map LogEntry.status
      = some "error") ∧
    (checkSkuAndProcess true true "A100" "en-us" 0
        (.failure "timeout of 30000ms exceeded")).messages = [] :=
  ⟨rfl, rfl⟩

/-- C1 as amended: an error notification goes out iff the gate is open and
the tick classified not_found (strictly null item list) or
malformed-item-list error; error outcomes from a transport failure, an
upstream success:false rejection, or a thrown item read never notify,
whatever the gate. -/
theorem claim_C1 (g e : Bool) (sku locale : String) (now : Nat) :
    (∀ msg, (checkSkuAndProcess g e sku locale now (.failure msg)).messages = []) ∧
    (∀ data, (data.optChain "success").truthy = false →
        (checkSkuAndProcess g e sku locale now (.response data)).messages = []) ∧
    (∀ data, (data.optChain "success").truthy = true →
        data.propE "listMap" = .ok .vNull →
        (checkSkuAndProcess g e sku locale now (.response data)).messages
          = (if e then [Message.skuNotFound sku locale] else [])) ∧
    (∀ data lm, (data.optChain "success").truthy = true →
        data.propE "listMap" = .ok lm → lm.isNull = false →
        (!lm.isArray || lm.arrLen == 0) = true →
        (checkSkuAndProcess g e sku locale now (.response data)).messages
          = (if e then [Message.skuCheckError sku locale] else [])) ∧
    (∀ data lm m, (data.optChain "success").truthy = true →
        data.propE "listMap" = .ok lm → lm.isNull = false →
        (!lm.isArray || lm.arrLen == 0) = false →
        lm.arrHead.propE "is_active" = .error m →
        (checkSkuAndProcess g e sku locale now (.response data)).messages = []) := by
  have hvn : JsVal.vNull.truthy = false := rfl
  refine ⟨?_, ?_, ?_, ?_, ?_⟩
  · intro msg
    simp [checkSkuAndProcess, checkSku, catchEffect, hvn]
  · intro data hs
    simp [checkSkuAndProcess, checkSku, checkSkuTry, hs, hvn]
  · intro data hs hl
    simp [checkSkuAndProcess, checkSku, checkSkuTry, hs, hl, hvn, JsVal.isNull]
  · intro data lm hs hl hn hm
    simp [checkSkuAndProcess, checkSku, checkSkuTry, hs, hl, hn, hm, hvn]
  · intro data lm m hs hl hn hm h5
    simp [checkSkuAndProcess, checkSku, checkSkuTry, catchEffect, hs, hl, hn, hm, h5, hvn]

/-- Witness for C1 as amended: a null item list with the gate open sends
the SKU-not-found notification. -/
theorem claim_C1_witness :
    (checkSkuAndProcess true true "A100" "en-us" 1 (.response (.vObj [("success", .vBool true),
        ("listMap", JsVal.vNull)]))).messages
      = (if true then [Message.skuNotFound "A100" "en-us"] else []) :=
  (claim_C1 true true "A100" "en-us" 1).2.2.1
    (.vObj [("success", .vBool true), ("listMap", JsVal.vNull)]) rfl rfl

end FeHunt
